import Mathlib

/-!
# ProbLabs backend — shallow embedding and verification

This file embeds the core logic of the ProbLabs waitlist backend
(`src/main.py`, `src/models.py`) in Lean 4 and proves the spec's claims
about it.

Modelling conventions:
* Timestamps are `Int` seconds; `timedelta(days = d)` is `d * 86400`.
* The relational store is a `DB` structure of three row lists,
  corresponding to the `leads`, `email_events` and `email_unsubscribes`
  tables.  SQL `INSERT ... ON CONFLICT DO NOTHING` becomes an insert
  guarded by a membership test; a `SELECT ... WHERE p ORDER BY created_at
  ASC LIMIT n` becomes `filter` + stable sort + `take`.
* External collaborators (the Turnstile verifier, the resend email API)
  are blocking calls whose observable outcome is success / reported
  failure / raised exception; each handler takes those outcomes as
  explicit parameters and additionally returns the trace of email-send
  attempts it made, so that "no send happened" is expressible.
* The HMAC-SHA256 hex digest used for unsubscribe links is abstracted as
  an explicit function parameter `hmacFn : String → String → String`
  (key → message → digest); every theorem about it quantifies over that
  function, so nothing depends on the digest's internals.
-/

namespace ProbLabs

/-- The lifecycle email stages stored in `email_events.event_type`
(`welcome | day3 | day7`). -/
inductive EventType where
  | welcome
  | day3
  | day7
deriving DecidableEq, Repr

/-- A row of the `leads` table (src/models.py `Lead`): unique
case-normalized email plus creation timestamp. -/
structure LeadRow where
  email : String
  created_at : Int
deriving DecidableEq, Repr

/-- A row of the `email_events` table (src/models.py `EmailEvent`),
unique on (email, event_type). -/
structure EmailEventRow where
  email : String
  event_type : EventType
  sent_at : Int
deriving DecidableEq, Repr

/-- A row of the `email_unsubscribes` table (src/models.py
`EmailUnsubscribe`), keyed on email. -/
structure UnsubRow where
  email : String
  unsubscribed_at : Int
deriving DecidableEq, Repr

/-- The relational store: the three tables the core logic touches. -/
structure DB where
  leads : List LeadRow
  email_events : List EmailEventRow
  email_unsubscribes : List UnsubRow
deriving DecidableEq, Repr

/-- Environment configuration (src/main.py module level): `ADMIN_API_KEY`,
`UNSUBSCRIBE_SECRET` (empty string models an unset variable, matching
Python falsiness), `ENABLE_NURTURE_EMAILS` and `NURTURE_BATCH_LIMIT`. -/
structure Config where
  adminApiKey : String
  unsubscribeSecret : String
  enableNurture : Bool
  batchLimit : Nat
deriving DecidableEq, Repr

/-- Python `str.lower()`, modelled characterwise (the emails involved are
ASCII). -/
def pyLower (s : String) : String := ⟨s.data.map Char.toLower⟩

/-- Python `str.strip()`: drop whitespace from both ends. -/
def pyStrip (s : String) : String :=
  ⟨((s.data.dropWhile Char.isWhitespace).reverse.dropWhile Char.isWhitespace).reverse⟩

/-- src/main.py `is_unsubscribed`: does an `email_unsubscribes` row for
this email exist? -/
def is_unsubscribed (db : DB) (email : String) : Bool :=
  db.email_unsubscribes.any (fun u => decide (u.email = email))

/-- src/main.py `mark_unsubscribed`: `INSERT INTO email_unsubscribes ...
ON CONFLICT (email) DO NOTHING`. -/
def mark_unsubscribed (db : DB) (email : String) (now : Int) : DB :=
  if is_unsubscribed db email then db
  else { db with email_unsubscribes := db.email_unsubscribes ++ [⟨email, now⟩] }

/-- Does an `email_events` row with this email and event type exist? -/
def hasEvent (db : DB) (email : String) (ty : EventType) : Bool :=
  db.email_events.any (fun r => decide (r.email = email ∧ r.event_type = ty))

/-- src/main.py `_record_email_event`: `INSERT INTO email_events (email,
event_type, sent_at) VALUES (..., NOW()) ON CONFLICT (email, event_type)
DO NOTHING`. -/
def record_email_event (db : DB) (email : String) (ty : EventType) (now : Int) : DB :=
  if hasEvent db email ty then db
  else { db with email_events := db.email_events ++ [⟨email, ty, now⟩] }

/-- The `email_events` rows belonging to one address. -/
def eventsFor (db : DB) (e : String) : List EmailEventRow :=
  db.email_events.filter (fun r => decide (r.email = e))

/-- Insert a lead row, keeping ascending `created_at` order is not needed:
SQL sorts at query time, so we model the table as an unordered list and
sort in the query.  Stable insertion by `created_at` for the `ORDER BY
created_at ASC` clause. -/
def insertByCreated (x : LeadRow) : List LeadRow → List LeadRow
  | [] => [x]
  | y :: ys => if y.created_at ≤ x.created_at then y :: insertByCreated x ys
               else x :: y :: ys

/-- Insertion sort by `created_at` ascending (SQL leaves tie order
unspecified; the model fixes one). -/
def sortByCreated (l : List LeadRow) : List LeadRow :=
  l.foldr insertByCreated []

/-- The shared shape of the two nurture candidate queries in src/main.py
`_get_due_nurture_emails` (they differ only in cutoff and event type):

`SELECT l.email FROM leads l LEFT JOIN email_events e ON e.email = l.email
AND e.event_type = :ty LEFT JOIN email_unsubscribes u ON u.email = l.email
WHERE l.created_at <= :cutoff AND e.email IS NULL AND u.email IS NULL
ORDER BY l.created_at ASC LIMIT :lim`. -/
def dueQuery (db : DB) (cutoff : Int) (ty : EventType) (lim : Nat) : List String :=
  let cands := db.leads.filter (fun l =>
    decide (l.created_at ≤ cutoff)
    && !(db.email_events.any (fun e => decide (e.email = l.email ∧ e.event_type = ty)))
    && !(db.email_unsubscribes.any (fun u => decide (u.email = l.email))))
  ((sortByCreated cands).take lim).map (fun l => l.email)

/-- src/main.py `_get_due_nurture_emails`: returns
`(day3_emails, day7_emails)` with cutoffs `now − 3d` and `now − 7d`. -/
def get_due_nurture_emails (db : DB) (now_utc : Int) (batch_limit : Nat) :
    List String × List String :=
  let day3_cutoff := now_utc - 3 * 86400
  let day7_cutoff := now_utc - 7 * 86400
  let day7_emails := dueQuery db day7_cutoff .day7 batch_limit
  let day3_emails := dueQuery db day3_cutoff .day3 batch_limit
  (day3_emails, day7_emails)

/-- Observable outcome of the blocking `verify_turnstile` call
(src/main.py lines 222-244): the upstream reported success; the upstream
reported failure (including the unparsable-JSON fallback dict, which has
`success: False`); or the call itself raised (urlopen error / timeout /
`TURNSTILE_SECRET_KEY` not configured). -/
inductive VerifyOutcome where
  | success
  | failure
  | raised
deriving DecidableEq, Repr

/-- Observable outcome of a `_resend_send` call: it returned, or it raised
an exception whose message does (`rateLimit = true`) or does not match
`_is_rate_limit_error` (substrings "too many requests" / "rate limit" /
"429"). -/
inductive SendOutcome where
  | ok
  | err (rateLimit : Bool)
deriving DecidableEq, Repr

/-- Trace of email-send attempts a handler made: stage, recipient,
outcome. -/
abbrev Trace := List (EventType × String × SendOutcome)

/-- src/main.py `is_valid_admin_key`:
`bool(ADMIN_API_KEY and x_admin_key and x_admin_key == ADMIN_API_KEY)`. -/
def is_valid_admin_key (cfg : Config) (x_admin_key : Option String) : Bool :=
  decide (cfg.adminApiKey ≠ "") &&
    (match x_admin_key with
     | none => false
     | some k => decide (k ≠ "") && decide (k = cfg.adminApiKey))

/-- The JSON body of a successful `POST /leads` response (src/main.py
`create_lead` return dict, minus the constant `ok: true`). -/
structure LeadResponse where
  inserted : Bool
  email_sent : Bool
  email_error_present : Bool
  skipped_unsubscribed : Bool
deriving DecidableEq, Repr

/-- How a request handler terminated: a JSON/HTML 200 response, an
`HTTPException(status, detail)`, or an unhandled exception that FastAPI
surfaces as a 500. -/
inductive HandlerResult (α : Type) where
  | ok (v : α)
  | httpError (status : Nat) (detail : String)
  | serverError
deriving DecidableEq, Repr

/-- Everything observable about one `POST /leads` call: the response, the
database afterwards and the email sends attempted. -/
structure LeadOutcome where
  result : HandlerResult LeadResponse
  db : DB
  sends : Trace
deriving DecidableEq, Repr

/-- The part of src/main.py `create_lead` from the `INSERT INTO leads ...
ON CONFLICT (email) DO NOTHING RETURNING email` on: insert if absent,
then (only when newly inserted) skip the welcome email if unsubscribed,
otherwise attempt it, recording an EmailEvent(welcome) only when the send
returned; a send exception is caught and reported via
`email_sent = false` and `email_error`. -/
def lead_insert (db : DB) (email : String) (send : SendOutcome) (now : Int) :
    LeadOutcome :=
  let inserted := !(db.leads.any (fun l => decide (l.email = email)))
  let db1 := if inserted then { db with leads := db.leads ++ [⟨email, now⟩] } else db
  if inserted then
    if is_unsubscribed db1 email then
      ⟨.ok ⟨true, false, false, true⟩, db1, []⟩
    else
      match send with
      | .ok =>
        ⟨.ok ⟨true, true, false, false⟩,
          record_email_event db1 email .welcome now,
          [(.welcome, email, .ok)]⟩
      | .err rl =>
        ⟨.ok ⟨true, false, true, false⟩, db1, [(.welcome, email, .err rl)]⟩
  else
    ⟨.ok ⟨false, false, false, false⟩, db1, []⟩

/-- src/main.py `create_lead` (`POST /leads`), after the rate-limit
dependency has passed.  Normalizes `payload.email.lower().strip()`; unless
a valid `X-Admin-Key` is presented it requires a nonempty
`turnstile_token` (else 400), calls the verifier (a raised exception
propagates out of the handler → 500; a reported failure → 403), then runs
the idempotent insert. -/
def create_lead (cfg : Config) (db : DB) (rawEmail : String)
    (turnstile_token : Option String) (x_admin_key : Option String)
    (verify : VerifyOutcome) (send : SendOutcome) (now : Int) : LeadOutcome :=
  let email := pyStrip (pyLower rawEmail)
  if is_valid_admin_key cfg x_admin_key then
    lead_insert db email send now
  else
    let token := pyStrip (turnstile_token.getD "")
    if token = "" then
      ⟨.httpError 400 "Missing turnstile_token. Please complete the verification and try again.", db, []⟩
    else
      match verify with
      | .raised => ⟨.serverError, db, []⟩
      | .failure => ⟨.httpError 403 "Turnstile verification failed.", db, []⟩
      | .success => lead_insert db email send now

/-- src/main.py `_unsub_sig`: empty string when `UNSUBSCRIBE_SECRET` is
unset, else the keyed hash (`hmac.new(key, msg, sha256).hexdigest()`,
abstracted as `hmacFn`) of the normalized email. -/
def unsub_sig (hmacFn : String → String → String) (secret : String)
    (email : String) : String :=
  if secret = "" then "" else hmacFn secret (pyLower (pyStrip email))

/-- Result of `GET /unsubscribe`: the confirmation HTML page (carrying the
normalized email) or an `HTTPException`; plus the database afterwards. -/
inductive UnsubOutcome where
  | ok (email : String) (db : DB)
  | httpError (status : Nat) (detail : String) (db : DB)
deriving DecidableEq, Repr

/-- src/main.py `unsubscribe` (`GET /unsubscribe?email=&sig=`): normalize
`(email or "").strip().lower()`, 400 when empty; recompute the expected
signature and 403 unless it is nonempty and `hmac.compare_digest` (i.e.
string equality, timing aside) accepts `sig.strip().lower()`; on match,
idempotently insert into `email_unsubscribes`. -/
def unsubscribe (cfg : Config) (hmacFn : String → String → String) (db : DB)
    (email sig : String) (now : Int) : UnsubOutcome :=
  let em := pyLower (pyStrip email)
  if em = "" then .httpError 400 "Missing email" db
  else
    let expected := unsub_sig hmacFn cfg.unsubscribeSecret em
    if expected = "" || !(decide (expected = pyLower (pyStrip sig))) then
      .httpError 403 "Invalid signature" db
    else
      .ok em (mark_unsubscribed db em now)

/-- Result of one nurture stage loop in src/main.py
`process_nurture_emails`: database afterwards, sends counted, errors
counted, whether the loop `break`-ed on a rate-limit signature, and the
trace of send attempts. -/
structure StageResult where
  db : DB
  sent : Nat
  errors : Nat
  stopped : Bool
  trace : Trace
deriving Repr

/-- One stage loop of `process_nurture_emails`: for each candidate, try
the send; on return, record the EmailEvent and count it sent; on
exception, count an error, and `break` when `_is_rate_limit_error`
matches. -/
def processStage (send : EventType → String → SendOutcome) (ty : EventType)
    (now : Int) : DB → List String → StageResult
  | db, [] => ⟨db, 0, 0, false, []⟩
  | db, e :: rest =>
    match send ty e with
    | .ok =>
      let r := processStage send ty now (record_email_event db e ty now) rest
      ⟨r.db, r.sent + 1, r.errors, r.stopped, (ty, e, .ok) :: r.trace⟩
    | .err true => ⟨db, 0, 1, true, [(ty, e, .err true)]⟩
    | .err false =>
      let r := processStage send ty now db rest
      ⟨r.db, r.sent, r.errors + 1, r.stopped, (ty, e, .err false) :: r.trace⟩

/-- The summary dict returned by `process_nurture_emails`; the optional
`stopped_early` / `stop_reason` keys are modelled as a `Bool` and an
`Option String` (absent keys ↦ `false` / `none`). -/
structure NurtureSummary where
  enabled : Bool
  sent_day3 : Nat
  sent_day7 : Nat
  errors : Nat
  stopped_early : Bool
  stop_reason : Option String
deriving DecidableEq, Repr

/-- Everything observable about one nurture run. -/
structure NurtureOutcome where
  summary : NurtureSummary
  db : DB
  trace : Trace
deriving Repr

/-- src/main.py `process_nurture_emails`: no-op summary when
`ENABLE_NURTURE_EMAILS` is off; otherwise select due candidates, send the
day-7 batch first, and — unless that batch stopped early on a rate
limit — the day-3 batch. -/
def process_nurture_emails (cfg : Config) (db : DB) (now : Int)
    (send : EventType → String → SendOutcome) : NurtureOutcome :=
  if !cfg.enableNurture then
    ⟨⟨false, 0, 0, 0, false, none⟩, db, []⟩
  else
    let due := get_due_nurture_emails db now cfg.batchLimit
    let r7 := processStage send .day7 now db due.2
    if r7.stopped then
      ⟨⟨true, 0, r7.sent, r7.errors, true, some "rate_limited_day7"⟩, r7.db, r7.trace⟩
    else
      let r3 := processStage send .day3 now r7.db due.1
      ⟨⟨true, r3.sent, r7.sent, r7.errors + r3.errors, r3.stopped,
          if r3.stopped then some "rate_limited_day3" else none⟩,
        r3.db, r7.trace ++ r3.trace⟩

/-- One externally triggered operation against the store: a `POST /leads`
signup, a `GET /unsubscribe` request, or an admin-triggered nurture run.
Each carries the observable outcomes of its external calls. -/
inductive Op where
  | signup (raw : String) (token adminKey : Option String)
      (verify : VerifyOutcome) (send : SendOutcome) (now : Int)
  | unsub (email sig : String) (now : Int)
  | nurture (now : Int) (send : EventType → String → SendOutcome)

/-- Apply one operation: the database afterwards and the email sends the
operation attempted. -/
def applyOp (cfg : Config) (hmacFn : String → String → String) (db : DB) :
    Op → DB × Trace
  | .signup raw tok key v s now =>
    let o := create_lead cfg db raw tok key v s now
    (o.db, o.sends)
  | .unsub email sig now =>
    match unsubscribe cfg hmacFn db email sig now with
    | .ok _ db1 => (db1, [])
    | .httpError _ _ db1 => (db1, [])
  | .nurture now send =>
    let o := process_nurture_emails cfg db now send
    (o.db, o.trace)

/-- Run a sequence of operations, accumulating the send trace. -/
def runOps (cfg : Config) (hmacFn : String → String → String) :
    DB → List Op → DB × Trace
  | db, [] => (db, [])
  | db, op :: ops =>
    let s := applyOp cfg hmacFn db op
    let r := runOps cfg hmacFn s.1 ops
    (r.1, s.2 ++ r.2)

/-! ## The spec's wording of the nurture candidate queries -/

/-- The candidate list as §4.2 of the spec words it: "leads with
created_at ≤ now − N d, no existing EmailEvent(ty), and no Unsubscribe
record, ordered oldest-first, capped at batch limit". -/
def specDueCandidates (db : DB) (now : Int) (days : Int) (ty : EventType)
    (lim : Nat) : List String :=
  let due := db.leads.filter (fun l =>
    decide (l.created_at ≤ now - days * 86400)
    && !(hasEvent db l.email ty)
    && !(is_unsubscribed db l.email))
  ((sortByCreated due).take lim).map (fun l => l.email)

/-! ## Helper lemmas -/

theorem record_email_event_leads (db : DB) (e : String) (ty : EventType) (now : Int) :
    (record_email_event db e ty now).leads = db.leads := by
  unfold record_email_event; split <;> rfl

theorem record_email_event_unsubs (db : DB) (e : String) (ty : EventType) (now : Int) :
    (record_email_event db e ty now).email_unsubscribes = db.email_unsubscribes := by
  unfold record_email_event; split <;> rfl

theorem lead_insert_fresh (db : DB) (email : String) (send : SendOutcome) (now : Int)
    (hfresh : ∀ l ∈ db.leads, l.email ≠ email) :
    ∃ r, (lead_insert db email send now).result = .ok r ∧ r.inserted = true ∧
      (lead_insert db email send now).db.leads = db.leads ++ [⟨email, now⟩] := by
  have hins : db.leads.any (fun l => decide (l.email = email)) = false := by
    simp only [List.any_eq_false, decide_eq_true_eq]
    exact hfresh
  by_cases hu : is_unsubscribed { db with leads := db.leads ++ [⟨email, now⟩] } email
  · exact ⟨⟨true, false, false, true⟩, by simp [lead_insert, hins, hu], rfl,
      by simp [lead_insert, hins, hu]⟩
  · cases send with
    | ok =>
      exact ⟨⟨true, true, false, false⟩, by simp [lead_insert, hins, hu], rfl,
        by simp [lead_insert, hins, hu, record_email_event_leads]⟩
    | err rl =>
      exact ⟨⟨true, false, true, false⟩, by simp [lead_insert, hins, hu], rfl,
        by simp [lead_insert, hins, hu]⟩

theorem lead_insert_dup (db : DB) (email : String) (send : SendOutcome) (now : Int)
    (hdup : ∃ l ∈ db.leads, l.email = email) :
    lead_insert db email send now = ⟨.ok ⟨false, false, false, false⟩, db, []⟩ := by
  have hins : db.leads.any (fun l => decide (l.email = email)) = true := by
    simp only [List.any_eq_true, decide_eq_true_eq]
    exact hdup
  simp [lead_insert, hins]

theorem create_lead_gate (cfg : Config) (db : DB) (raw : String)
    (token adminKey : Option String) (verify : VerifyOutcome) (send : SendOutcome)
    (now : Int)
    (hgate : is_valid_admin_key cfg adminKey = true ∨
      (pyStrip (token.getD "") ≠ "" ∧ verify = .success)) :
    create_lead cfg db raw token adminKey verify send now =
      lead_insert db (pyStrip (pyLower raw)) send now := by
  unfold create_lead
  rcases hgate with h | ⟨ht, hv⟩
  · simp [h]
  · subst hv
    by_cases hk : is_valid_admin_key cfg adminKey = true
    · simp [hk]
    · simp only [Bool.not_eq_true] at hk
      simp [hk, ht]

/-! ## The claims -/

/-- C1: for every database state and `now`, the nurture selector's day-7
candidate list is exactly the leads created at least 7 days ago with no
day7 EmailEvent and no Unsubscribe record, oldest first, truncated to the
batch limit, and the day-3 list likewise with a 3-day cutoff and day3
events; concretely, a lead created at C is selected for day3 but not day7
at `now = C + 3d + 1s`, and for day7 at `now = C + 7d + 1s`. -/
theorem claim_C1 :
    (∀ (db : DB) (now : Int) (lim : Nat),
      get_due_nurture_emails db now lim =
        (specDueCandidates db now 3 .day3 lim, specDueCandidates db now 7 .day7 lim))
    ∧ get_due_nurture_emails ⟨[⟨"lead@example.com", 0⟩], [], []⟩ (3 * 86400 + 1) 25 =
        (["lead@example.com"], [])
    ∧ get_due_nurture_emails ⟨[⟨"lead@example.com", 0⟩], [], []⟩ (7 * 86400 + 1) 25 =
        (["lead@example.com"], ["lead@example.com"]) :=
  ⟨fun _ _ _ => rfl, by decide, by decide⟩

/-- C2: signup is idempotent on the normalized email.  A `POST /leads`
whose gate passes (valid admin key, or nonempty token with verifier
success) on a store with no lead for the normalized email returns
`inserted = true` and leaves exactly one matching Lead row; on any store
that already has such a lead it returns `inserted = false`, leaves the
store completely unchanged, and attempts no email send. -/
theorem claim_C2 (cfg : Config) (db db2 : DB) (raw : String)
    (token adminKey : Option String) (verify : VerifyOutcome)
    (send : SendOutcome) (now now2 : Int)
    (hgate : is_valid_admin_key cfg adminKey = true ∨
      (pyStrip (token.getD "") ≠ "" ∧ verify = .success)) :
    ((∀ l ∈ db.leads, l.email ≠ pyStrip (pyLower raw)) →
      ∃ r, (create_lead cfg db raw token adminKey verify send now).result = .ok r
        ∧ r.inserted = true
        ∧ (create_lead cfg db raw token adminKey verify send now).db.leads.filter
            (fun l => decide (l.email = pyStrip (pyLower raw)))
            = [⟨pyStrip (pyLower raw), now⟩])
    ∧ ((∃ l ∈ db2.leads, l.email = pyStrip (pyLower raw)) →
      (create_lead cfg db2 raw token adminKey verify send now2).result
          = .ok ⟨false, false, false, false⟩
        ∧ (create_lead cfg db2 raw token adminKey verify send now2).db = db2
        ∧ (create_lead cfg db2 raw token adminKey verify send now2).sends = []) := by
  constructor
  · intro hfresh
    rw [create_lead_gate cfg db raw token adminKey verify send now hgate]
    obtain ⟨r, h1, h2, h3⟩ :=
      lead_insert_fresh db (pyStrip (pyLower raw)) send now hfresh
    refine ⟨r, h1, h2, ?_⟩
    rw [h3, List.filter_append]
    have hnil : db.leads.filter (fun l => decide (l.email = pyStrip (pyLower raw))) = [] := by
      rw [List.filter_eq_nil_iff]
      intro a ha
      simpa using hfresh a ha
    rw [hnil]
    simp
  · intro hdup
    rw [create_lead_gate cfg db2 raw token adminKey verify send now2 hgate,
      lead_insert_dup db2 (pyStrip (pyLower raw)) send now2 hdup]
    exact ⟨rfl, rfl, rfl⟩

/-- Witness for C2: a concrete first signup of `"  Test@Example.com "`
(admin-key path) inserts, then a second signup of the same address against
the resulting store is refused with no changes. -/
theorem claim_C2_witness :
    (∃ r, (create_lead ⟨"adm", "", false, 25⟩ ⟨[], [], []⟩ "  Test@Example.com "
        none (some "adm") .success .ok 7).result = .ok r
      ∧ r.inserted = true
      ∧ (create_lead ⟨"adm", "", false, 25⟩ ⟨[], [], []⟩ "  Test@Example.com "
          none (some "adm") .success .ok 7).db.leads.filter
          (fun l => decide (l.email = pyStrip (pyLower "  Test@Example.com ")))
          = [⟨pyStrip (pyLower "  Test@Example.com "), 7⟩])
    ∧ ((create_lead ⟨"adm", "", false, 25⟩ ⟨[⟨"test@example.com", 5⟩], [], []⟩
          "  Test@Example.com " none (some "adm") .success .ok 10).result
        = .ok ⟨false, false, false, false⟩
      ∧ (create_lead ⟨"adm", "", false, 25⟩ ⟨[⟨"test@example.com", 5⟩], [], []⟩
          "  Test@Example.com " none (some "adm") .success .ok 10).db
        = ⟨[⟨"test@example.com", 5⟩], [], []⟩
      ∧ (create_lead ⟨"adm", "", false, 25⟩ ⟨[⟨"test@example.com", 5⟩], [], []⟩
          "  Test@Example.com " none (some "adm") .success .ok 10).sends = []) := by
  have h := claim_C2 ⟨"adm", "", false, 25⟩ ⟨[], [], []⟩ ⟨[⟨"test@example.com", 5⟩], [], []⟩
    "  Test@Example.com " none (some "adm") .success .ok 7 10 (Or.inl (by decide))
  exact ⟨h.1 (by decide), h.2 (by decide)⟩

theorem mark_unsubscribed_leads (db : DB) (em : String) (now : Int) :
    (mark_unsubscribed db em now).leads = db.leads := by
  unfold mark_unsubscribed; split <;> rfl

theorem mark_unsubscribed_events (db : DB) (em : String) (now : Int) :
    (mark_unsubscribed db em now).email_events = db.email_events := by
  unfold mark_unsubscribed; split <;> rfl

theorem is_unsubscribed_mark (db : DB) (em : String) (now : Int) :
    is_unsubscribed (mark_unsubscribed db em now) em = true := by
  unfold mark_unsubscribed
  split
  · assumption
  · simp [is_unsubscribed]

theorem mark_unsubscribed_idem (db : DB) (em : String) (now : Int)
    (h : is_unsubscribed db em = true) : mark_unsubscribed db em now = db := by
  unfold mark_unsubscribed; simp [h]

theorem lead_insert_result_ok (db : DB) (email : String) (send : SendOutcome) (now : Int) :
    ∃ r, (lead_insert db email send now).result = .ok r := by
  cases hins : db.leads.any (fun l => decide (l.email = email)) with
  | true => exact ⟨⟨false, false, false, false⟩, by simp [lead_insert, hins]⟩
  | false =>
    by_cases hu : is_unsubscribed { db with leads := db.leads ++ [⟨email, now⟩] } email
    · exact ⟨⟨true, false, false, true⟩, by simp [lead_insert, hins, hu]⟩
    · cases send with
      | ok => exact ⟨⟨true, true, false, false⟩, by simp [lead_insert, hins, hu]⟩
      | err rl => exact ⟨⟨true, false, true, false⟩, by simp [lead_insert, hins, hu]⟩

/-- C8: with `ENABLE_NURTURE_EMAILS` off (its default), a nurture run is a
complete no-op: the database is untouched, no send is attempted, and the
summary is exactly
`{enabled: false, sent_day3: 0, sent_day7: 0, errors: 0}`. -/
theorem claim_C8 (cfg : Config) (db : DB) (now : Int)
    (send : EventType → String → SendOutcome) (h : cfg.enableNurture = false) :
    process_nurture_emails cfg db now send = ⟨⟨false, 0, 0, 0, false, none⟩, db, []⟩ := by
  simp [process_nurture_emails, h]

/-- Witness for C8: a disabled run on a nonempty store with an overdue
lead changes nothing. -/
theorem claim_C8_witness :
    process_nurture_emails ⟨"", "", false, 25⟩ ⟨[⟨"a@b.c", 0⟩], [], []⟩ (10 * 86400)
        (fun _ _ => .ok)
      = ⟨⟨false, 0, 0, 0, false, none⟩, ⟨[⟨"a@b.c", 0⟩], [], []⟩, []⟩ :=
  claim_C8 ⟨"", "", false, 25⟩ ⟨[⟨"a@b.c", 0⟩], [], []⟩ (10 * 86400) (fun _ _ => .ok) rfl

/-- C9: with a valid `X-Admin-Key`, CAPTCHA verification is skipped
entirely: the handler's outcome is independent of the `turnstile_token`
and of the verifier's behaviour (so neither is consulted), and the request
proceeds to the insert, returning a 200 response. -/
theorem claim_C9 (cfg : Config) (db : DB) (raw : String)
    (t1 t2 adminKey : Option String) (v1 v2 : VerifyOutcome)
    (send : SendOutcome) (now : Int)
    (h : is_valid_admin_key cfg adminKey = true) :
    create_lead cfg db raw t1 adminKey v1 send now =
      create_lead cfg db raw t2 adminKey v2 send now
    ∧ ∃ r, (create_lead cfg db raw t1 adminKey v1 send now).result = .ok r := by
  have e1 := create_lead_gate cfg db raw t1 adminKey v1 send now (Or.inl h)
  have e2 := create_lead_gate cfg db raw t2 adminKey v2 send now (Or.inl h)
  refine ⟨e1.trans e2.symm, ?_⟩
  rw [e1]
  exact lead_insert_result_ok db (pyStrip (pyLower raw)) send now

/-- Witness for C9: two admin-keyed signups differing in token and
verifier outcome coincide. -/
theorem claim_C9_witness :
    (create_lead ⟨"adm", "", false, 25⟩ ⟨[], [], []⟩ "x@y.io" (some "token-a")
        (some "adm") .failure .ok 3
      = create_lead ⟨"adm", "", false, 25⟩ ⟨[], [], []⟩ "x@y.io" none
        (some "adm") .raised .ok 3)
    ∧ ∃ r, (create_lead ⟨"adm", "", false, 25⟩ ⟨[], [], []⟩ "x@y.io" (some "token-a")
        (some "adm") .failure .ok 3).result = .ok r :=
  claim_C9 ⟨"adm", "", false, 25⟩ ⟨[], [], []⟩ "x@y.io" (some "token-a") none
    (some "adm") .failure .raised .ok 3 (by decide)

/-- C10 (amended): with `UNSUBSCRIBE_SECRET` unset, every `GET
/unsubscribe` whose normalized email is nonempty is rejected 403, and one
whose normalized email is empty is rejected 400 (`Missing email`) — not
403 as the claim stated; in both cases the store is untouched, so no
address can ever be added to the Unsubscribe Registry in that
configuration. -/
theorem claim_C10 (cfg : Config) (hmacFn : String → String → String) (db : DB)
    (email sig : String) (now : Int) (hsec : cfg.unsubscribeSecret = "") :
    (pyLower (pyStrip email) ≠ "" →
      unsubscribe cfg hmacFn db email sig now = .httpError 403 "Invalid signature" db)
    ∧ (pyLower (pyStrip email) = "" →
      unsubscribe cfg hmacFn db email sig now = .httpError 400 "Missing email" db) := by
  constructor <;> intro he <;> simp [unsubscribe, unsub_sig, hsec, he]

/-- Witness for C10: a concrete nonempty-email request under an unset
secret is rejected 403 with no row added (the digest function is an
arbitrary stand-in; with no secret it is never consulted). -/
theorem claim_C10_witness :
    unsubscribe ⟨"", "", false, 25⟩ (fun k m => String.append k m) ⟨[], [], []⟩
        "A@B.c" "whatever" 3
      = .httpError 403 "Invalid signature" ⟨[], [], []⟩ :=
  (claim_C10 ⟨"", "", false, 25⟩ (fun k m => String.append k m) ⟨[], [], []⟩
    "A@B.c" "whatever" 3 rfl).1 (by decide)

/-- Counterexample to C10 as stated: with the secret unset, a request with
an empty email is rejected 400 `Missing email`, not 403. -/
theorem claim_C10_counterexample :
    unsubscribe ⟨"", "", false, 25⟩ (fun k m => String.append k m) ⟨[], [], []⟩
        "" "whatever" 3
      = .httpError 400 "Missing email" ⟨[], [], []⟩ := by decide

/-- C7 (amended): a non-admin `POST /leads` with a nonempty token fails
closed on CAPTCHA verification — a reported verifier failure yields a 403
rejection, and a raised verification call propagates as an unhandled
exception (HTTP 500, not the 400/403 the claim stated); in both cases the
store is untouched and no welcome send is attempted. -/
theorem claim_C7 (cfg : Config) (db : DB) (raw : String)
    (token adminKey : Option String) (send : SendOutcome) (now : Int)
    (hadmin : is_valid_admin_key cfg adminKey = false)
    (htok : pyStrip (token.getD "") ≠ "") :
    create_lead cfg db raw token adminKey .failure send now
        = ⟨.httpError 403 "Turnstile verification failed.", db, []⟩
    ∧ create_lead cfg db raw token adminKey .raised send now
        = ⟨.serverError, db, []⟩ := by
  constructor <;> simp [create_lead, hadmin, htok]

/-- Witness for C7: concrete non-admin signups hitting a failing and a
raising verifier. -/
theorem claim_C7_witness :
    create_lead ⟨"adm", "", false, 25⟩ ⟨[], [], []⟩ "user@example.com" (some "tok")
        none .failure .ok 0
      = ⟨.httpError 403 "Turnstile verification failed.", ⟨[], [], []⟩, []⟩
    ∧ create_lead ⟨"adm", "", false, 25⟩ ⟨[], [], []⟩ "user@example.com" (some "tok")
        none .raised .ok 0
      = ⟨.serverError, ⟨[], [], []⟩, []⟩ :=
  claim_C7 ⟨"adm", "", false, 25⟩ ⟨[], [], []⟩ "user@example.com" (some "tok") none
    .ok 0 (by decide) (by decide)

/-- Counterexample to C7 as stated: when the verification call raises, the
handler ends in an unhandled exception (500), not an HTTP 400/403
`VerificationFailed` rejection (though still with no Lead inserted). -/
theorem claim_C7_counterexample :
    create_lead ⟨"adm", "", false, 25⟩ ⟨[], [], []⟩ "user@example.com" (some "tok")
        none .raised .ok 0
      = ⟨.serverError, ⟨[], [], []⟩, []⟩ := by decide



/-- C6 (amended): a `GET /unsubscribe` with nonempty normalized email
whose signature does not match the keyed hash of that email is rejected
with status 403 (`Invalid signature`) — not the 400 the claim stated — and
no registry row is created; a matching signature idempotently inserts the
address into the Unsubscribe Registry, touching nothing else. -/
theorem claim_C6 (cfg : Config) (hmacFn : String → String → String) (db : DB)
    (email sig : String) (now : Int)
    (hem : pyLower (pyStrip email) ≠ "") :
    (¬ (unsub_sig hmacFn cfg.unsubscribeSecret (pyLower (pyStrip email)) ≠ ""
        ∧ unsub_sig hmacFn cfg.unsubscribeSecret (pyLower (pyStrip email))
            = pyLower (pyStrip sig)) →
      unsubscribe cfg hmacFn db email sig now = .httpError 403 "Invalid signature" db)
    ∧ ((unsub_sig hmacFn cfg.unsubscribeSecret (pyLower (pyStrip email)) ≠ ""
        ∧ unsub_sig hmacFn cfg.unsubscribeSecret (pyLower (pyStrip email))
            = pyLower (pyStrip sig)) →
      unsubscribe cfg hmacFn db email sig now
          = .ok (pyLower (pyStrip email))
              (mark_unsubscribed db (pyLower (pyStrip email)) now)
        ∧ (mark_unsubscribed db (pyLower (pyStrip email)) now).leads = db.leads
        ∧ (mark_unsubscribed db (pyLower (pyStrip email)) now).email_events
            = db.email_events
        ∧ is_unsubscribed (mark_unsubscribed db (pyLower (pyStrip email)) now)
            (pyLower (pyStrip email)) = true
        ∧ (is_unsubscribed db (pyLower (pyStrip email)) = true →
            mark_unsubscribed db (pyLower (pyStrip email)) now = db)) := by
  constructor
  · intro h
    have hcond : (unsub_sig hmacFn cfg.unsubscribeSecret (pyLower (pyStrip email)) = ""
        || !(decide (unsub_sig hmacFn cfg.unsubscribeSecret (pyLower (pyStrip email))
              = pyLower (pyStrip sig)))) = true := by
      by_cases h1 : unsub_sig hmacFn cfg.unsubscribeSecret (pyLower (pyStrip email)) = ""
      · simp [h1]
      · have h2 : ¬ (unsub_sig hmacFn cfg.unsubscribeSecret (pyLower (pyStrip email))
            = pyLower (pyStrip sig)) := fun h2 => h ⟨h1, h2⟩
        simp [h1, h2]
    simp [unsubscribe, hem, hcond]
  · rintro ⟨h1, h2⟩
    have hcond : (unsub_sig hmacFn cfg.unsubscribeSecret (pyLower (pyStrip email)) = ""
        || !(decide (unsub_sig hmacFn cfg.unsubscribeSecret (pyLower (pyStrip email))
              = pyLower (pyStrip sig)))) = false := by
      have h3 : pyLower (pyStrip sig) ≠ "" := h2 ▸ h1
      simp [h2, h3]
    exact ⟨by simp [unsubscribe, hem, hcond],
      mark_unsubscribed_leads db (pyLower (pyStrip email)) now,
      mark_unsubscribed_events db (pyLower (pyStrip email)) now,
      is_unsubscribed_mark db (pyLower (pyStrip email)) now,
      fun h => mark_unsubscribed_idem db (pyLower (pyStrip email)) now h⟩

/-- Witness for C6: with a concrete stand-in digest function, a tampered
signature is rejected 403 with no row, and the matching signature inserts
the normalized address (the handler's branch depends only on whether the
supplied string equals the expected digest). -/
theorem claim_C6_witness :
    (unsubscribe ⟨"", "sek", false, 25⟩ (fun k m => String.append k m) ⟨[], [], []⟩
        "U@x.io " "bogus" 5 = .httpError 403 "Invalid signature" ⟨[], [], []⟩)
    ∧ (unsubscribe ⟨"", "sek", false, 25⟩ (fun k m => String.append k m) ⟨[], [], []⟩
        "U@x.io " "seku@x.io" 5
          = .ok (pyLower (pyStrip "U@x.io "))
              (mark_unsubscribed ⟨[], [], []⟩ (pyLower (pyStrip "U@x.io ")) 5)
        ∧ (mark_unsubscribed ⟨[], [], []⟩ (pyLower (pyStrip "U@x.io ")) 5).leads = []
        ∧ (mark_unsubscribed ⟨[], [], []⟩ (pyLower (pyStrip "U@x.io ")) 5).email_events = []
        ∧ is_unsubscribed (mark_unsubscribed ⟨[], [], []⟩ (pyLower (pyStrip "U@x.io ")) 5)
            (pyLower (pyStrip "U@x.io ")) = true
        ∧ (is_unsubscribed ⟨[], [], []⟩ (pyLower (pyStrip "U@x.io ")) = true →
            mark_unsubscribed ⟨[], [], []⟩ (pyLower (pyStrip "U@x.io ")) 5 = ⟨[], [], []⟩)) :=
  ⟨(claim_C6 ⟨"", "sek", false, 25⟩ (fun k m => String.append k m) ⟨[], [], []⟩
      "U@x.io " "bogus" 5 (by decide)).1 (by decide),
   (claim_C6 ⟨"", "sek", false, 25⟩ (fun k m => String.append k m) ⟨[], [], []⟩
      "U@x.io " "seku@x.io" 5 (by decide)).2 (by decide)⟩

/-- Counterexample to C6 as stated: a mismatching signature is rejected
with status 403, not 400. -/
theorem claim_C6_counterexample :
    unsubscribe ⟨"", "sek", false, 25⟩ (fun k m => String.append k m) ⟨[], [], []⟩
      "a@b.c" "bogus" 0 = .httpError 403 "Invalid signature" ⟨[], [], []⟩ := by decide

theorem hasEvent_record (db : DB) (a : String) (ty : EventType) (now : Int)
    (e : String) (t : EventType) :
    hasEvent (record_email_event db a ty now) e t
      = (hasEvent db e t || decide (a = e ∧ ty = t)) := by
  unfold record_email_event
  split
  · rename_i h
    by_cases hae : a = e ∧ ty = t
    · obtain ⟨h1, h2⟩ := hae
      subst h1; subst h2
      simp [h]
    · simp [hae]
  · simp [hasEvent, List.any_append]

theorem processStage_db_fixed (send : EventType → String → SendOutcome)
    (ty : EventType) (now : Int) (db : DB) (es : List String) :
    (processStage send ty now db es).db.leads = db.leads
    ∧ (processStage send ty now db es).db.email_unsubscribes = db.email_unsubscribes := by
  induction es generalizing db with
  | nil => exact ⟨rfl, rfl⟩
  | cons a rest ih =>
    unfold processStage
    cases h : send ty a with
    | ok =>
      have := ih (record_email_event db a ty now)
      simp only [h]
      exact ⟨this.1.trans (record_email_event_leads db a ty now),
        this.2.trans (record_email_event_unsubs db a ty now)⟩
    | err rl =>
      cases rl with
      | true => exact ⟨rfl, rfl⟩
      | false => simpa using ih db

theorem processStage_trace_ty (send : EventType → String → SendOutcome)
    (ty : EventType) (now : Int) (db : DB) (es : List String) :
    ∀ s ∈ (processStage send ty now db es).trace, s.1 = ty := by
  induction es generalizing db with
  | nil => simp [processStage]
  | cons a rest ih =>
    unfold processStage
    cases h : send ty a with
    | ok =>
      intro s hs
      rcases List.mem_cons.mp hs with h1 | h1
      · rw [h1]
      · exact ih (record_email_event db a ty now) s h1
    | err rl =>
      cases rl with
      | true => simp
      | false =>
        intro s hs
        rcases List.mem_cons.mp hs with h1 | h1
        · rw [h1]
        · exact ih db s h1

theorem processStage_sent_count (send : EventType → String → SendOutcome)
    (ty : EventType) (now : Int) (db : DB) (es : List String) :
    (processStage send ty now db es).sent
      = (processStage send ty now db es).trace.countP
          (fun s => decide (s.2.2 = SendOutcome.ok)) := by
  induction es generalizing db with
  | nil => simp [processStage]
  | cons a rest ih =>
    unfold processStage
    cases h : send ty a with
    | ok => simp [List.countP_cons, ih (record_email_event db a ty now)]
    | err rl =>
      cases rl with
      | true => simp [List.countP_cons]
      | false => simp [List.countP_cons, ih db]

theorem processStage_errors_count (send : EventType → String → SendOutcome)
    (ty : EventType) (now : Int) (db : DB) (es : List String) :
    (processStage send ty now db es).errors
      = (processStage send ty now db es).trace.countP
          (fun s => decide (s.2.2 ≠ SendOutcome.ok)) := by
  induction es generalizing db with
  | nil => simp [processStage]
  | cons a rest ih =>
    unfold processStage
    cases h : send ty a with
    | ok => simp [List.countP_cons, ih (record_email_event db a ty now)]
    | err rl =>
      cases rl with
      | true => simp [List.countP_cons]
      | false => simp [List.countP_cons, ih db]

theorem processStage_no_rl (send : EventType → String → SendOutcome)
    (ty : EventType) (now : Int) (db : DB) (es : List String)
    (h : ∀ e ∈ es, send ty e ≠ .err true) :
    (processStage send ty now db es).stopped = false
    ∧ (processStage send ty now db es).trace.map (fun s => s.2.1) = es := by
  induction es generalizing db with
  | nil => exact ⟨rfl, rfl⟩
  | cons a rest ih =>
    have hrest : ∀ e ∈ rest, send ty e ≠ .err true :=
      fun e he => h e (List.mem_cons_of_mem a he)
    unfold processStage
    cases hs : send ty a with
    | ok =>
      have := ih (record_email_event db a ty now) hrest
      simp [this.1, this.2]
    | err rl =>
      cases rl with
      | true => exact absurd hs (h a (List.mem_cons_self a rest))
      | false =>
        have := ih db hrest
        simp [this.1, this.2]



theorem processStage_hasEvent (send : EventType → String → SendOutcome)
    (ty : EventType) (now : Int) (db : DB) (es : List String)
    (e : String) (t : EventType) :
    hasEvent (processStage send ty now db es).db e t
      = (hasEvent db e t
          || (processStage send ty now db es).trace.any
              (fun s => decide (s.1 = t ∧ s.2.1 = e ∧ s.2.2 = SendOutcome.ok))) := by
  induction es generalizing db with
  | nil => simp [processStage]
  | cons a rest ih =>
    unfold processStage
    cases h : send ty a with
    | ok =>
      simp only [List.any_cons, ih (record_email_event db a ty now),
        hasEvent_record]
      by_cases h1 : a = e <;> by_cases h2 : ty = t <;>
        simp [h1, h2, Bool.or_assoc, Bool.or_comm, Bool.or_left_comm]
    | err rl =>
      cases rl with
      | true => simp
      | false => simp [ih db]

theorem eventsFor_record_ne (db : DB) (a : String) (ty : EventType) (now : Int)
    (e : String) (h : a ≠ e) :
    eventsFor (record_email_event db a ty now) e = eventsFor db e := by
  unfold record_email_event
  split
  · rfl
  · simp [eventsFor, List.filter_append, h]

theorem processStage_sends_mem (send : EventType → String → SendOutcome)
    (ty : EventType) (now : Int) (db : DB) (es : List String) :
    ∀ s ∈ (processStage send ty now db es).trace, s.2.1 ∈ es := by
  induction es generalizing db with
  | nil => simp [processStage]
  | cons a rest ih =>
    unfold processStage
    cases h : send ty a with
    | ok =>
      intro s hs
      rcases List.mem_cons.mp hs with h1 | h1
      · rw [h1]; exact List.mem_cons_self a rest
      · exact List.mem_cons_of_mem a (ih (record_email_event db a ty now) s h1)
    | err rl =>
      cases rl with
      | true => simp
      | false =>
        intro s hs
        rcases List.mem_cons.mp hs with h1 | h1
        · rw [h1]; exact List.mem_cons_self a rest
        · exact List.mem_cons_of_mem a (ih db s h1)

theorem processStage_eventsFor_not_mem (send : EventType → String → SendOutcome)
    (ty : EventType) (now : Int) (db : DB) (es : List String) (e : String)
    (h : e ∉ es) :
    eventsFor (processStage send ty now db es).db e = eventsFor db e := by
  induction es generalizing db with
  | nil => rfl
  | cons a rest ih =>
    have hae : a ≠ e := fun hh => h (hh ▸ List.mem_cons_self a rest)
    have hrest : e ∉ rest := fun hh => h (List.mem_cons_of_mem a hh)
    unfold processStage
    cases hs : send ty a with
    | ok =>
      exact (ih (record_email_event db a ty now) hrest).trans
        (eventsFor_record_ne db a ty now e hae)
    | err rl =>
      cases rl with
      | true => rfl
      | false => simpa using ih db hrest

theorem mem_insertByCreated (x a : LeadRow) (l : List LeadRow) :
    a ∈ insertByCreated x l ↔ a = x ∨ a ∈ l := by
  induction l with
  | nil => simp [insertByCreated]
  | cons y ys ih =>
    unfold insertByCreated
    split
    · simp only [List.mem_cons, ih]
      tauto
    · simp only [List.mem_cons]

theorem mem_sortByCreated (a : LeadRow) (l : List LeadRow) :
    a ∈ sortByCreated l ↔ a ∈ l := by
  induction l with
  | nil => simp [sortByCreated]
  | cons x xs ih =>
    show a ∈ insertByCreated x (sortByCreated xs) ↔ _
    rw [mem_insertByCreated]
    simp [ih]

theorem not_mem_dueQuery (db : DB) (cutoff : Int) (ty : EventType) (lim : Nat)
    (e : String) (h : is_unsubscribed db e = true) :
    e ∉ dueQuery db cutoff ty lim := by
  intro hmem
  unfold dueQuery at hmem
  simp only [List.mem_map] at hmem
  obtain ⟨l, hl, hle⟩ := hmem
  have hl2 := List.mem_of_mem_take hl
  have hl3 := (mem_sortByCreated l _).mp hl2
  have hp := (List.mem_filter.mp hl3).2
  rw [hle] at hp
  simp only [is_unsubscribed] at h
  simp [h] at hp



theorem hasEvent_lead_insert (db : DB) (email : String) (send : SendOutcome) (now : Int)
    (e : String) (t : EventType) :
    hasEvent (lead_insert db email send now).db e t
      = (hasEvent db e t
          || (lead_insert db email send now).sends.any
              (fun s => decide (s.1 = t ∧ s.2.1 = e ∧ s.2.2 = SendOutcome.ok))) := by
  cases hins : db.leads.any (fun l => decide (l.email = email)) with
  | true => simp [lead_insert, hins, hasEvent]
  | false =>
    by_cases hu : is_unsubscribed { db with leads := db.leads ++ [⟨email, now⟩] } email
    · simp [lead_insert, hins, hu, hasEvent]
    · cases send with
      | ok =>
        have hrec := hasEvent_record { db with leads := db.leads ++ [⟨email, now⟩] }
          email .welcome now e t
        have hirr : hasEvent { db with leads := db.leads ++ [⟨email, now⟩] } e t
            = hasEvent db e t := rfl
        simp only [lead_insert, hins, Bool.not_true, Bool.not_false, hu, if_false,
          if_true, reduceIte, Bool.false_eq_true]
        rw [hrec, hirr]
        congr 1
        by_cases h1 : email = e <;> by_cases h2 : EventType.welcome = t <;>
          simp [h1, h2]
      | err rl => simp [lead_insert, hins, hu, hasEvent]

/-- C4: an EmailEvent appears in the store after a nurture run or a signup
exactly when it was already there or the corresponding send attempt in
that operation's trace reported success; failed or raised sends leave no
event; a nurture run changes neither leads nor unsubscribes. -/
theorem claim_C4 :
    (∀ (cfg : Config) (db : DB) (now : Int) (send : EventType → String → SendOutcome)
        (e : String) (t : EventType),
      hasEvent (process_nurture_emails cfg db now send).db e t
        = (hasEvent db e t
            || (process_nurture_emails cfg db now send).trace.any
                (fun s => decide (s.1 = t ∧ s.2.1 = e ∧ s.2.2 = SendOutcome.ok)))
      ∧ (process_nurture_emails cfg db now send).db.leads = db.leads
      ∧ (process_nurture_emails cfg db now send).db.email_unsubscribes
          = db.email_unsubscribes)
    ∧ (∀ (cfg : Config) (db : DB) (raw : String) (token adminKey : Option String)
        (verify : VerifyOutcome) (send : SendOutcome) (now : Int)
        (e : String) (t : EventType),
      hasEvent (create_lead cfg db raw token adminKey verify send now).db e t
        = (hasEvent db e t
            || (create_lead cfg db raw token adminKey verify send now).sends.any
                (fun s => decide (s.1 = t ∧ s.2.1 = e ∧ s.2.2 = SendOutcome.ok)))) := by
  constructor
  · intro cfg db now send e t
    by_cases hen : cfg.enableNurture = true
    · simp only [process_nurture_emails, hen, Bool.not_true, Bool.false_eq_true,
        if_false]
      by_cases h7 : (processStage send .day7 now db
          (get_due_nurture_emails db now cfg.batchLimit).2).stopped = true
      · simp only [h7, if_true, reduceIte]
        exact ⟨processStage_hasEvent send .day7 now db _ e t,
          (processStage_db_fixed send .day7 now db _).1,
          (processStage_db_fixed send .day7 now db _).2⟩
      · simp only [Bool.not_eq_true] at h7
        simp only [h7, Bool.false_eq_true, if_false]
        refine ⟨?_, ?_, ?_⟩
        · rw [processStage_hasEvent send .day3 now _ _ e t,
            processStage_hasEvent send .day7 now db _ e t,
            List.any_append, Bool.or_assoc]
        · rw [(processStage_db_fixed send .day3 now _ _).1,
            (processStage_db_fixed send .day7 now db _).1]
        · rw [(processStage_db_fixed send .day3 now _ _).2,
            (processStage_db_fixed send .day7 now db _).2]
    · simp only [Bool.not_eq_true] at hen
      simp [process_nurture_emails, hen]
  · intro cfg db raw token adminKey verify send now e t
    by_cases hk : is_valid_admin_key cfg adminKey = true
    · rw [create_lead_gate cfg db raw token adminKey verify send now (Or.inl hk)]
      exact hasEvent_lead_insert db (pyStrip (pyLower raw)) send now e t
    · have hkf : is_valid_admin_key cfg adminKey = false := by
        simpa using hk
      by_cases htok : pyStrip (token.getD "") = ""
      · simp [create_lead, hkf, htok]
      · cases verify with
        | raised => simp [create_lead, hkf, htok]
        | failure => simp [create_lead, hkf, htok]
        | success =>
          rw [create_lead_gate cfg db raw token adminKey .success send now
            (Or.inr ⟨htok, rfl⟩)]
          exact hasEvent_lead_insert db (pyStrip (pyLower raw)) send now e t



theorem is_unsubscribed_record (db : DB) (a : String) (ty : EventType) (now : Int)
    (e : String) :
    is_unsubscribed (record_email_event db a ty now) e = is_unsubscribed db e := by
  unfold record_email_event; split <;> rfl

theorem eventsFor_mark (db : DB) (em : String) (now : Int) (e : String) :
    eventsFor (mark_unsubscribed db em now) e = eventsFor db e := by
  unfold mark_unsubscribed; split <;> rfl

theorem is_unsubscribed_mark_mono (db : DB) (em : String) (now : Int) (e : String)
    (h : is_unsubscribed db e = true) :
    is_unsubscribed (mark_unsubscribed db em now) e = true := by
  unfold mark_unsubscribed
  split
  · exact h
  · unfold is_unsubscribed at h ⊢
    simp only [List.any_append]
    simp [h]

theorem processStage_is_unsubscribed (send : EventType → String → SendOutcome)
    (ty : EventType) (now : Int) (db : DB) (es : List String) (e : String) :
    is_unsubscribed (processStage send ty now db es).db e = is_unsubscribed db e := by
  unfold is_unsubscribed
  rw [(processStage_db_fixed send ty now db es).2]

theorem lead_insert_unsub_inv (db : DB) (email : String) (send : SendOutcome)
    (now : Int) (e : String) (h : is_unsubscribed db e = true) :
    is_unsubscribed (lead_insert db email send now).db e = true
    ∧ eventsFor (lead_insert db email send now).db e = eventsFor db e
    ∧ ∀ s ∈ (lead_insert db email send now).sends, s.2.1 ≠ e := by
  have hdb1 : is_unsubscribed { db with leads := db.leads ++ [⟨email, now⟩] } e = true := h
  cases hins : db.leads.any (fun l => decide (l.email = email)) with
  | true =>
    refine ⟨?_, ?_, ?_⟩
    · simpa [lead_insert, hins] using h
    · simp [lead_insert, hins]
    · simp [lead_insert, hins]
  | false =>
    by_cases hu : is_unsubscribed { db with leads := db.leads ++ [⟨email, now⟩] } email = true
    · refine ⟨?_, ?_, ?_⟩
      · simpa [lead_insert, hins, hu] using hdb1
      · simp [lead_insert, hins, hu, eventsFor]
      · simp [lead_insert, hins, hu]
    · have hne : email ≠ e := fun hh => hu (hh ▸ hdb1)
      cases send with
      | ok =>
        refine ⟨?_, ?_, ?_⟩
        · simp only [lead_insert, hins, Bool.not_true, Bool.not_false, hu, if_false,
            if_true, reduceIte, Bool.false_eq_true]
          rw [is_unsubscribed_record]
          exact hdb1
        · simp only [lead_insert, hins, Bool.not_true, Bool.not_false, hu, if_false,
            if_true, reduceIte, Bool.false_eq_true]
          exact eventsFor_record_ne _ email .welcome now e hne
        · simp only [lead_insert, hins, Bool.not_true, Bool.not_false, hu, if_false,
            if_true, reduceIte, Bool.false_eq_true]
          intro s hs
          rcases List.mem_cons.mp hs with h1 | h1
          · rw [h1]; exact hne
          · simp at h1
      | err rl =>
        refine ⟨?_, ?_, ?_⟩
        · simpa [lead_insert, hins, hu] using hdb1
        · simp [lead_insert, hins, hu, eventsFor]
        · simp only [lead_insert, hins, Bool.not_true, Bool.not_false, hu, if_false,
            if_true, reduceIte, Bool.false_eq_true]
          intro s hs
          rcases List.mem_cons.mp hs with h1 | h1
          · rw [h1]; exact hne
          · simp at h1

theorem create_lead_unsub_inv (cfg : Config) (db : DB) (raw : String)
    (token adminKey : Option String) (verify : VerifyOutcome) (send : SendOutcome)
    (now : Int) (e : String) (h : is_unsubscribed db e = true) :
    is_unsubscribed (create_lead cfg db raw token adminKey verify send now).db e = true
    ∧ eventsFor (create_lead cfg db raw token adminKey verify send now).db e
        = eventsFor db e
    ∧ ∀ s ∈ (create_lead cfg db raw token adminKey verify send now).sends,
        s.2.1 ≠ e := by
  by_cases hk : is_valid_admin_key cfg adminKey = true
  · rw [create_lead_gate cfg db raw token adminKey verify send now (Or.inl hk)]
    exact lead_insert_unsub_inv db (pyStrip (pyLower raw)) send now e h
  · have hkf : is_valid_admin_key cfg adminKey = false := by simpa using hk
    by_cases htok : pyStrip (token.getD "") = ""
    · refine ⟨?_, ?_, ?_⟩ <;> simp [create_lead, hkf, htok, h]
    · cases verify with
      | raised => refine ⟨?_, ?_, ?_⟩ <;> simp [create_lead, hkf, htok, h]
      | failure => refine ⟨?_, ?_, ?_⟩ <;> simp [create_lead, hkf, htok, h]
      | success =>
        rw [create_lead_gate cfg db raw token adminKey .success send now
          (Or.inr ⟨htok, rfl⟩)]
        exact lead_insert_unsub_inv db (pyStrip (pyLower raw)) send now e h

theorem unsubscribe_db_cases (cfg : Config) (hmacFn : String → String → String)
    (db : DB) (email sig : String) (now : Int) :
    (∃ st d, unsubscribe cfg hmacFn db email sig now = .httpError st d db)
    ∨ ∃ em, unsubscribe cfg hmacFn db email sig now
        = .ok em (mark_unsubscribed db em now) := by
  by_cases h1 : pyLower (pyStrip email) = ""
  · exact Or.inl ⟨400, "Missing email", by simp [unsubscribe, h1]⟩
  · by_cases h2 : (unsub_sig hmacFn cfg.unsubscribeSecret (pyLower (pyStrip email)) = ""
        || !(decide (unsub_sig hmacFn cfg.unsubscribeSecret (pyLower (pyStrip email))
              = pyLower (pyStrip sig)))) = true
    · exact Or.inl ⟨403, "Invalid signature", by simp only [unsubscribe, h1, h2]; simp [h1]⟩
    · have h2f : (unsub_sig hmacFn cfg.unsubscribeSecret (pyLower (pyStrip email)) = ""
          || !(decide (unsub_sig hmacFn cfg.unsubscribeSecret (pyLower (pyStrip email))
                = pyLower (pyStrip sig)))) = false := by simpa using h2
      exact Or.inr ⟨pyLower (pyStrip email), by simp only [unsubscribe, h1, h2f]; simp [h1]⟩

theorem process_unsub_inv (cfg : Config) (db : DB) (now : Int)
    (send : EventType → String → SendOutcome) (e : String)
    (h : is_unsubscribed db e = true) :
    is_unsubscribed (process_nurture_emails cfg db now send).db e = true
    ∧ eventsFor (process_nurture_emails cfg db now send).db e = eventsFor db e
    ∧ ∀ s ∈ (process_nurture_emails cfg db now send).trace, s.2.1 ≠ e := by
  have h7m : e ∉ (get_due_nurture_emails db now cfg.batchLimit).2 :=
    not_mem_dueQuery db (now - 7 * 86400) .day7 cfg.batchLimit e h
  have h3m : e ∉ (get_due_nurture_emails db now cfg.batchLimit).1 :=
    not_mem_dueQuery db (now - 3 * 86400) .day3 cfg.batchLimit e h
  by_cases hen : cfg.enableNurture = true
  · simp only [process_nurture_emails, hen, Bool.not_true, Bool.false_eq_true, if_false]
    by_cases h7 : (processStage send .day7 now db
        (get_due_nurture_emails db now cfg.batchLimit).2).stopped = true
    · simp only [h7, if_true, reduceIte]
      refine ⟨?_, ?_, ?_⟩
      · rw [processStage_is_unsubscribed]; exact h
      · exact processStage_eventsFor_not_mem send .day7 now db _ e h7m
      · intro s hs
        intro he
        exact h7m (he ▸ processStage_sends_mem send .day7 now db _ s hs)
    · simp only [Bool.not_eq_true] at h7
      simp only [h7, Bool.false_eq_true, if_false]
      refine ⟨?_, ?_, ?_⟩
      · rw [processStage_is_unsubscribed, processStage_is_unsubscribed]; exact h
      · rw [processStage_eventsFor_not_mem send .day3 now _ _ e h3m]
        exact processStage_eventsFor_not_mem send .day7 now db _ e h7m
      · intro s hs
        intro he
        rcases List.mem_append.mp hs with h1 | h1
        · exact h7m (he ▸ processStage_sends_mem send .day7 now db _ s h1)
        · exact h3m (he ▸ processStage_sends_mem send .day3 now _ _ s h1)
  · simp only [Bool.not_eq_true] at hen
    refine ⟨?_, ?_, ?_⟩ <;> simp [process_nurture_emails, hen, h]



theorem applyOp_unsub_inv (cfg : Config) (hmacFn : String → String → String)
    (db : DB) (op : Op) (e : String) (h : is_unsubscribed db e = true) :
    is_unsubscribed (applyOp cfg hmacFn db op).1 e = true
    ∧ eventsFor (applyOp cfg hmacFn db op).1 e = eventsFor db e
    ∧ ∀ s ∈ (applyOp cfg hmacFn db op).2, s.2.1 ≠ e := by
  cases op with
  | signup raw tok key v s now =>
    exact create_lead_unsub_inv cfg db raw tok key v s now e h
  | unsub email sig now =>
    rcases unsubscribe_db_cases cfg hmacFn db email sig now with ⟨st, d, heq⟩ | ⟨em, heq⟩
    · refine ⟨?_, ?_, ?_⟩ <;> simp [applyOp, heq, h]
    · refine ⟨?_, ?_, ?_⟩
      · simp only [applyOp, heq]
        exact is_unsubscribed_mark_mono db em now e h
      · simp only [applyOp, heq]
        exact eventsFor_mark db em now e
      · simp [applyOp, heq]
  | nurture now send =>
    exact process_unsub_inv cfg db now send e h

/-- C3: once an Unsubscribe record for an address exists, no sequence of
signups, unsubscribes and nurture runs ever records another EmailEvent for
that address, and no email send to it is ever attempted. -/
theorem claim_C3 (cfg : Config) (hmacFn : String → String → String) (db : DB)
    (ops : List Op) (e : String) (h : is_unsubscribed db e = true) :
    eventsFor (runOps cfg hmacFn db ops).1 e = eventsFor db e
    ∧ ∀ s ∈ (runOps cfg hmacFn db ops).2, s.2.1 ≠ e := by
  induction ops generalizing db with
  | nil => exact ⟨rfl, by simp [runOps]⟩
  | cons op ops ih =>
    have hstep := applyOp_unsub_inv cfg hmacFn db op e h
    have hrest := ih (applyOp cfg hmacFn db op).1 hstep.1
    rw [show runOps cfg hmacFn db (op :: ops)
        = ((runOps cfg hmacFn (applyOp cfg hmacFn db op).1 ops).1,
           (applyOp cfg hmacFn db op).2
             ++ (runOps cfg hmacFn (applyOp cfg hmacFn db op).1 ops).2) from rfl]
    refine ⟨hrest.1.trans hstep.2.1, ?_⟩
    intro s hs
    rcases List.mem_append.mp hs with h1 | h1
    · exact hstep.2.2 s h1
    · exact hrest.2 s h1

/-- Witness for C3: `gone@x.io` is unsubscribed; a re-signup, a nurture run
and another unsubscribe request leave its event rows unchanged and send it
nothing. -/
theorem claim_C3_witness :
    eventsFor (runOps ⟨"adm", "sek", true, 25⟩ (fun k m => String.append k m)
        ⟨[⟨"gone@x.io", 0⟩], [], [⟨"gone@x.io", 50⟩]⟩
        [.signup "gone@X.io" none (some "adm") .success .ok 100,
         .nurture 700000 (fun _ _ => .ok),
         .unsub "gone@x.io" "s" 800000]).1 "gone@x.io"
      = eventsFor ⟨[⟨"gone@x.io", 0⟩], [], [⟨"gone@x.io", 50⟩]⟩ "gone@x.io"
    ∧ ∀ s ∈ (runOps ⟨"adm", "sek", true, 25⟩ (fun k m => String.append k m)
        ⟨[⟨"gone@x.io", 0⟩], [], [⟨"gone@x.io", 50⟩]⟩
        [.signup "gone@X.io" none (some "adm") .success .ok 100,
         .nurture 700000 (fun _ _ => .ok),
         .unsub "gone@x.io" "s" 800000]).2, s.2.1 ≠ "gone@x.io" :=
  claim_C3 ⟨"adm", "sek", true, 25⟩ (fun k m => String.append k m)
    ⟨[⟨"gone@x.io", 0⟩], [], [⟨"gone@x.io", 50⟩]⟩
    [.signup "gone@X.io" none (some "adm") .success .ok 100,
     .nurture 700000 (fun _ _ => .ok),
     .unsub "gone@x.io" "s" 800000] "gone@x.io" (by decide)



/-- Counterexample to C5 as stated: `x@ex.com` is due for day7 and
`y@ex.com` for day3 (`y`'s send would succeed), yet after `x`'s day-7 send
hits a rate limit the run stops entirely — the day-3 batch is skipped too
(`sent_day3 = 0`, trace holds only the day-7 attempt), not just the
remaining sends of the day-7 stage. -/
theorem claim_C5_counterexample :
    get_due_nurture_emails
        ⟨[⟨"x@ex.com", 0⟩, ⟨"y@ex.com", 400000⟩], [⟨"x@ex.com", .day3, 100⟩], []⟩
        700000 25
      = (["y@ex.com"], ["x@ex.com"])
    ∧ (fun (ty : EventType) (_ : String) =>
        match ty with | .day7 => SendOutcome.err true | _ => SendOutcome.ok)
        .day3 "y@ex.com" = .ok
    ∧ (process_nurture_emails ⟨"", "", true, 25⟩
        ⟨[⟨"x@ex.com", 0⟩, ⟨"y@ex.com", 400000⟩], [⟨"x@ex.com", .day3, 100⟩], []⟩
        700000
        (fun ty _ => match ty with | .day7 => SendOutcome.err true | _ => SendOutcome.ok)).summary
      = ⟨true, 0, 0, 1, true, some "rate_limited_day7"⟩
    ∧ (process_nurture_emails ⟨"", "", true, 25⟩
        ⟨[⟨"x@ex.com", 0⟩, ⟨"y@ex.com", 400000⟩], [⟨"x@ex.com", .day3, 100⟩], []⟩
        700000
        (fun ty _ => match ty with | .day7 => SendOutcome.err true | _ => SendOutcome.ok)).trace
      = [(.day7, "x@ex.com", .err true)] := by
  refine ⟨by decide, rfl, by decide, by decide⟩



/-- If every send before `e` in a stage's candidate list returns but `e`'s
send fails with a rate-limit signature, the stage loop attempts exactly
the prefix up to and including `e` — the remaining candidates of that
stage are skipped — and reports `stopped`. -/
theorem processStage_rl_stop (send : EventType → String → SendOutcome)
    (ty : EventType) (now : Int) (db : DB) (pre : List String) (e : String)
    (post : List String)
    (hpre : ∀ x ∈ pre, send ty x ≠ .err true) (he : send ty e = .err true) :
    (processStage send ty now db (pre ++ e :: post)).stopped = true
    ∧ (processStage send ty now db (pre ++ e :: post)).trace.map (fun s => s.2.1)
        = pre ++ [e] := by
  induction pre generalizing db with
  | nil => simp [processStage, he]
  | cons a rest ih =>
    have hae : send ty a ≠ .err true := hpre a (List.mem_cons_self a rest)
    have hrest : ∀ x ∈ rest, send ty x ≠ .err true :=
      fun x hx => hpre x (List.mem_cons_of_mem a hx)
    simp only [List.cons_append]
    unfold processStage
    cases hs : send ty a with
    | ok =>
      have := ih (record_email_event db a ty now) hrest
      simp [this.1, this.2]
    | err rl =>
      cases rl with
      | true => exact absurd hs hae
      | false =>
        have := ih db hrest
        simp [this.1, this.2]

end ProbLabs

namespace ProbLabs

/-- C5 (amended): in every enabled nurture run the day-7 batch is
dispatched before the day-3 batch; the summary counts successful sends per
stage and every failed send in the error counter; without any rate-limit
failure every candidate of both stages is attempted (no abort on first
failure); and on the first rate-limited send the run stops: a rate-limited
day-7 send makes the trace exactly the day-7 candidates up to and
including it — skipping the remaining day-7 sends and the entire day-3
batch (the claim said only the failing stage's remainder is skipped) —
while a rate-limited day-3 send (after a rate-limit-free day-7 batch)
makes the trace the full day-7 batch followed by the day-3 candidates up
to and including it, skipping the remaining day-3 sends. -/
theorem claim_C5 (cfg : Config) (db : DB) (now : Int)
    (send : EventType → String → SendOutcome) (hen : cfg.enableNurture = true) :
    (∃ tr7 tr3,
      (process_nurture_emails cfg db now send).trace = tr7 ++ tr3
      ∧ (∀ s ∈ tr7, s.1 = .day7) ∧ (∀ s ∈ tr3, s.1 = .day3)
      ∧ (process_nurture_emails cfg db now send).summary.sent_day7
          = tr7.countP (fun s => decide (s.2.2 = SendOutcome.ok))
      ∧ (process_nurture_emails cfg db now send).summary.sent_day3
          = tr3.countP (fun s => decide (s.2.2 = SendOutcome.ok))
      ∧ (process_nurture_emails cfg db now send).summary.errors
          = (process_nurture_emails cfg db now send).trace.countP
              (fun s => decide (s.2.2 ≠ SendOutcome.ok)))
    ∧ ((∀ e ∈ (get_due_nurture_emails db now cfg.batchLimit).2,
          send .day7 e ≠ .err true) →
       (∀ e ∈ (get_due_nurture_emails db now cfg.batchLimit).1,
          send .day3 e ≠ .err true) →
        (process_nurture_emails cfg db now send).summary.stopped_early = false
        ∧ (process_nurture_emails cfg db now send).trace.map (fun s => s.2.1)
            = (get_due_nurture_emails db now cfg.batchLimit).2
              ++ (get_due_nurture_emails db now cfg.batchLimit).1)
    ∧ ((process_nurture_emails cfg db now send).summary.stop_reason
          = some "rate_limited_day7" →
        ∀ s ∈ (process_nurture_emails cfg db now send).trace, s.1 = .day7)
    ∧ (∀ pre e post,
        (get_due_nurture_emails db now cfg.batchLimit).2 = pre ++ e :: post →
        (∀ x ∈ pre, send .day7 x ≠ .err true) → send .day7 e = .err true →
        (process_nurture_emails cfg db now send).summary.stopped_early = true
        ∧ (process_nurture_emails cfg db now send).summary.stop_reason
            = some "rate_limited_day7"
        ∧ (process_nurture_emails cfg db now send).trace.map (fun s => s.2.1)
            = pre ++ [e])
    ∧ (∀ pre e post,
        (∀ x ∈ (get_due_nurture_emails db now cfg.batchLimit).2,
          send .day7 x ≠ .err true) →
        (get_due_nurture_emails db now cfg.batchLimit).1 = pre ++ e :: post →
        (∀ x ∈ pre, send .day3 x ≠ .err true) → send .day3 e = .err true →
        (process_nurture_emails cfg db now send).summary.stopped_early = true
        ∧ (process_nurture_emails cfg db now send).summary.stop_reason
            = some "rate_limited_day3"
        ∧ (process_nurture_emails cfg db now send).trace.map (fun s => s.2.1)
            = (get_due_nurture_emails db now cfg.batchLimit).2 ++ (pre ++ [e])) := by
  by_cases h7 : (processStage send .day7 now db
      (get_due_nurture_emails db now cfg.batchLimit).2).stopped = true
  · have hout : process_nurture_emails cfg db now send
        = ⟨⟨true, 0,
            (processStage send .day7 now db
              (get_due_nurture_emails db now cfg.batchLimit).2).sent,
            (processStage send .day7 now db
              (get_due_nurture_emails db now cfg.batchLimit).2).errors,
            true, some "rate_limited_day7"⟩,
          (processStage send .day7 now db
            (get_due_nurture_emails db now cfg.batchLimit).2).db,
          (processStage send .day7 now db
            (get_due_nurture_emails db now cfg.batchLimit).2).trace⟩ := by
      simp [process_nurture_emails, hen, h7]
    refine ⟨?_, ?_, ?_, ?_, ?_⟩
    · refine ⟨(processStage send .day7 now db
          (get_due_nurture_emails db now cfg.batchLimit).2).trace, [], ?_, ?_, ?_, ?_, ?_, ?_⟩
      · rw [hout]; simp
      · exact processStage_trace_ty send .day7 now db _
      · simp
      · rw [hout]
        exact processStage_sent_count send .day7 now db _
      · rw [hout]; simp
      · rw [hout]
        exact processStage_errors_count send .day7 now db _
    · intro hno7 hno3
      exact absurd h7 (by
        rw [(processStage_no_rl send .day7 now db _ hno7).1]
        simp)
    · intro hreason
      rw [hout]
      exact processStage_trace_ty send .day7 now db _
    · intro pre e post hdec hpre he
      have hstop := processStage_rl_stop send .day7 now db pre e post hpre he
      rw [hdec] at hout
      refine ⟨?_, ?_, ?_⟩
      · rw [hout]
      · rw [hout]
      · rw [hout]
        exact hstop.2
    · intro pre e post hno7 hdec hpre he
      exact absurd h7 (by
        rw [(processStage_no_rl send .day7 now db _ hno7).1]
        simp)
  · simp only [Bool.not_eq_true] at h7
    have hout : process_nurture_emails cfg db now send
        = ⟨⟨true,
            (processStage send .day3 now
              (processStage send .day7 now db
                (get_due_nurture_emails db now cfg.batchLimit).2).db
              (get_due_nurture_emails db now cfg.batchLimit).1).sent,
            (processStage send .day7 now db
              (get_due_nurture_emails db now cfg.batchLimit).2).sent,
            (processStage send .day7 now db
              (get_due_nurture_emails db now cfg.batchLimit).2).errors
            + (processStage send .day3 now
                (processStage send .day7 now db
                  (get_due_nurture_emails db now cfg.batchLimit).2).db
                (get_due_nurture_emails db now cfg.batchLimit).1).errors,
            (processStage send .day3 now
              (processStage send .day7 now db
                (get_due_nurture_emails db now cfg.batchLimit).2).db
              (get_due_nurture_emails db now cfg.batchLimit).1).stopped,
            if (processStage send .day3 now
                (processStage send .day7 now db
                  (get_due_nurture_emails db now cfg.batchLimit).2).db
                (get_due_nurture_emails db now cfg.batchLimit).1).stopped
              then some "rate_limited_day3" else none⟩,
          (processStage send .day3 now
            (processStage send .day7 now db
              (get_due_nurture_emails db now cfg.batchLimit).2).db
            (get_due_nurture_emails db now cfg.batchLimit).1).db,
          (processStage send .day7 now db
            (get_due_nurture_emails db now cfg.batchLimit).2).trace
          ++ (processStage send .day3 now
              (processStage send .day7 now db
                (get_due_nurture_emails db now cfg.batchLimit).2).db
              (get_due_nurture_emails db now cfg.batchLimit).1).trace⟩ := by
      simp [process_nurture_emails, hen, h7]
    refine ⟨?_, ?_, ?_, ?_, ?_⟩
    · refine ⟨(processStage send .day7 now db
          (get_due_nurture_emails db now cfg.batchLimit).2).trace,
        (processStage send .day3 now
          (processStage send .day7 now db
            (get_due_nurture_emails db now cfg.batchLimit).2).db
          (get_due_nurture_emails db now cfg.batchLimit).1).trace,
        ?_, ?_, ?_, ?_, ?_, ?_⟩
      · rw [hout]
      · exact processStage_trace_ty send .day7 now db _
      · exact processStage_trace_ty send .day3 now _ _
      · rw [hout]
        exact processStage_sent_count send .day7 now db _
      · rw [hout]
        exact processStage_sent_count send .day3 now _ _
      · rw [hout]
        simp only [List.countP_append]
        rw [processStage_errors_count send .day7 now db _,
          processStage_errors_count send .day3 now _ _]
    · intro hno7 hno3
      have h3 := processStage_no_rl send .day3 now
        (processStage send .day7 now db
          (get_due_nurture_emails db now cfg.batchLimit).2).db
        (get_due_nurture_emails db now cfg.batchLimit).1 hno3
      have h7full := processStage_no_rl send .day7 now db
        (get_due_nurture_emails db now cfg.batchLimit).2 hno7
      constructor
      · rw [hout]
        exact h3.1
      · rw [hout]
        simp only [List.map_append]
        rw [h7full.2, h3.2]
    · intro hreason
      rw [hout] at hreason
      by_cases h3s : (processStage send .day3 now
          (processStage send .day7 now db
            (get_due_nurture_emails db now cfg.batchLimit).2).db
          (get_due_nurture_emails db now cfg.batchLimit).1).stopped = true
      · simp [h3s] at hreason
      · simp only [Bool.not_eq_true] at h3s
        simp [h3s] at hreason
    · intro pre e post hdec hpre he
      have hstop := processStage_rl_stop send .day7 now db pre e post hpre he
      rw [hdec] at h7
      rw [hstop.1] at h7
      exact absurd h7 (by simp)
    · intro pre e post hno7 hdec hpre he
      have hstop := processStage_rl_stop send .day3 now
        (processStage send .day7 now db
          (get_due_nurture_emails db now cfg.batchLimit).2).db pre e post hpre he
      have h7full := processStage_no_rl send .day7 now db
        (get_due_nurture_emails db now cfg.batchLimit).2 hno7
      rw [hdec] at hout
      refine ⟨?_, ?_, ?_⟩
      · rw [hout]
        exact hstop.1
      · rw [hout]
        simp [hstop.1]
      · rw [hout]
        simp only [List.map_append]
        rw [h7full.2, hstop.2]

/-- Witness for C5: an enabled run over an empty store satisfies the
amended properties. -/
theorem claim_C5_witness :
    (∃ tr7 tr3,
      (process_nurture_emails ⟨"", "", true, 25⟩ ⟨[], [], []⟩ 0
          (fun _ _ => SendOutcome.ok)).trace = tr7 ++ tr3
      ∧ (∀ s ∈ tr7, s.1 = .day7) ∧ (∀ s ∈ tr3, s.1 = .day3)
      ∧ (process_nurture_emails ⟨"", "", true, 25⟩ ⟨[], [], []⟩ 0
          (fun _ _ => SendOutcome.ok)).summary.sent_day7
          = tr7.countP (fun s => decide (s.2.2 = SendOutcome.ok))
      ∧ (process_nurture_emails ⟨"", "", true, 25⟩ ⟨[], [], []⟩ 0
          (fun _ _ => SendOutcome.ok)).summary.sent_day3
          = tr3.countP (fun s => decide (s.2.2 = SendOutcome.ok))
      ∧ (process_nurture_emails ⟨"", "", true, 25⟩ ⟨[], [], []⟩ 0
          (fun _ _ => SendOutcome.ok)).summary.errors
          = (process_nurture_emails ⟨"", "", true, 25⟩ ⟨[], [], []⟩ 0
              (fun _ _ => SendOutcome.ok)).trace.countP
              (fun s => decide (s.2.2 ≠ SendOutcome.ok)))
    ∧ ((∀ e ∈ (get_due_nurture_emails ⟨[], [], []⟩ 0 25).2,
          (fun (_ : EventType) (_ : String) => SendOutcome.ok) .day7 e ≠ .err true) →
       (∀ e ∈ (get_due_nurture_emails ⟨[], [], []⟩ 0 25).1,
          (fun (_ : EventType) (_ : String) => SendOutcome.ok) .day3 e ≠ .err true) →
        (process_nurture_emails ⟨"", "", true, 25⟩ ⟨[], [], []⟩ 0
          (fun _ _ => SendOutcome.ok)).summary.stopped_early = false
        ∧ (process_nurture_emails ⟨"", "", true, 25⟩ ⟨[], [], []⟩ 0
            (fun _ _ => SendOutcome.ok)).trace.map (fun s => s.2.1)
            = (get_due_nurture_emails ⟨[], [], []⟩ 0 25).2
              ++ (get_due_nurture_emails ⟨[], [], []⟩ 0 25).1)
    ∧ ((process_nurture_emails ⟨"", "", true, 25⟩ ⟨[], [], []⟩ 0
          (fun _ _ => SendOutcome.ok)).summary.stop_reason
          = some "rate_limited_day7" →
        ∀ s ∈ (process_nurture_emails ⟨"", "", true, 25⟩ ⟨[], [], []⟩ 0
            (fun _ _ => SendOutcome.ok)).trace, s.1 = .day7)
    ∧ (∀ pre e post,
        (get_due_nurture_emails ⟨[], [], []⟩ 0 25).2 = pre ++ e :: post →
        (∀ x ∈ pre, (fun (_ : EventType) (_ : String) => SendOutcome.ok) .day7 x
            ≠ SendOutcome.err true) →
        (fun (_ : EventType) (_ : String) => SendOutcome.ok) .day7 e
            = SendOutcome.err true →
        (process_nurture_emails ⟨"", "", true, 25⟩ ⟨[], [], []⟩ 0
          (fun _ _ => SendOutcome.ok)).summary.stopped_early = true
        ∧ (process_nurture_emails ⟨"", "", true, 25⟩ ⟨[], [], []⟩ 0
            (fun _ _ => SendOutcome.ok)).summary.stop_reason
            = some "rate_limited_day7"
        ∧ (process_nurture_emails ⟨"", "", true, 25⟩ ⟨[], [], []⟩ 0
            (fun _ _ => SendOutcome.ok)).trace.map (fun s => s.2.1) = pre ++ [e])
    ∧ (∀ pre e post,
        (∀ x ∈ (get_due_nurture_emails ⟨[], [], []⟩ 0 25).2,
          (fun (_ : EventType) (_ : String) => SendOutcome.ok) .day7 x
            ≠ SendOutcome.err true) →
        (get_due_nurture_emails ⟨[], [], []⟩ 0 25).1 = pre ++ e :: post →
        (∀ x ∈ pre, (fun (_ : EventType) (_ : String) => SendOutcome.ok) .day3 x
            ≠ SendOutcome.err true) →
        (fun (_ : EventType) (_ : String) => SendOutcome.ok) .day3 e
            = SendOutcome.err true →
        (process_nurture_emails ⟨"", "", true, 25⟩ ⟨[], [], []⟩ 0
          (fun _ _ => SendOutcome.ok)).summary.stopped_early = true
        ∧ (process_nurture_emails ⟨"", "", true, 25⟩ ⟨[], [], []⟩ 0
            (fun _ _ => SendOutcome.ok)).summary.stop_reason
            = some "rate_limited_day3"
        ∧ (process_nurture_emails ⟨"", "", true, 25⟩ ⟨[], [], []⟩ 0
            (fun _ _ => SendOutcome.ok)).trace.map (fun s => s.2.1)
            = (get_due_nurture_emails ⟨[], [], []⟩ 0 25).2 ++ (pre ++ [e])) :=
  claim_C5 ⟨"", "", true, 25⟩ ⟨[], [], []⟩ 0 (fun _ _ => SendOutcome.ok) rfl

end ProbLabs
